import Mathlib

/-
Verification development for the zephyr driver-boilerplate generator.

The repository holds a board hardware description
(src/boards/arm/nucleo_l073rz/nucleo_l073rz.dts) and a driver template
(src/drivers/i2c/i2c_ll_stm32_device_template.h).  The generator engine
itself (Compatibility Resolver, Parameter Binder, Renderer, Emitter) is
not under src/; the engine definitions below are therefore modelled from
the specification, while the i2c template and the board node are embedded
from the source files directly.
-/

/-- PropertyValue: tagged union over integer, integer list, string, string
list, boolean, reference and absent, as in the data model. -/
inductive PropertyValue where
  | intVal (n : Int)
  | intList (l : List Int)
  | strVal (s : String)
  | strList (l : List String)
  | boolVal (b : Bool)
  | refVal (target : String)
  | absent
deriving DecidableEq

/-- Declared parameter types of a template schema. -/
inductive PType where
  | tInt
  | tIntList
  | tString
  | tStringList
  | tBool
  | tRef
deriving DecidableEq

/-- Type tag of a present value; `none` for Absent. -/
def typeOf : PropertyValue → Option PType
  | .intVal _ => some .tInt
  | .intList _ => some .tIntList
  | .strVal _ => some .tString
  | .strList _ => some .tStringList
  | .boolVal _ => some .tBool
  | .refVal _ => some .tRef
  | .absent => none

/-- DeviceNode: identity, ordered compatible identifiers (most-specific
first), property store and status flag. -/
structure DeviceNode where
  name : String
  compatible : List String
  props : List (String × PropertyValue)
  enabled : Bool
deriving DecidableEq

/-- One entry of a template's parameter schema: name, declared type,
required flag and optional default. -/
structure SchemaEntry where
  pname : String
  ptype : PType
  required : Bool
  dflt : Option PropertyValue
deriving DecidableEq

/-- Render body structure: literal text, substitution points, conditional
blocks keyed on feature flags, and variant blocks keyed on the matched
compatible identifier. -/
inductive Segment where
  | lit (s : String)
  | subst (pname : String)
  | cond (flag : String) (inner : List Segment)
  | variant (branches : List (String × List Segment))

/-- Template: name, supported compatible identifiers, parameter schema and
render body. -/
structure Template where
  tname : String
  supported : List String
  schema : List SchemaEntry
  body : List Segment

/-- Bound parameter set produced by the Parameter Binder. -/
abbrev BoundParams := List (String × PropertyValue)

/-- First binding for a name in an association list. -/
def lookupP : List (String × PropertyValue) → String → Option PropertyValue
  | [], _ => none
  | (k, v) :: rest, n => if k = n then some v else lookupP rest n

/-- Modelled from the spec: the Property Store accessor `get` of the
missing engine; missing properties yield Absent, not an error. -/
def getProp (props : List (String × PropertyValue)) (n : String) : PropertyValue :=
  match lookupP props n with
  | some v => v
  | none => .absent

/-- Does template `t` list `id` as a supported compatible identifier? -/
def supportsId (t : Template) (id : String) : Bool :=
  t.supported.any fun s => s == id

/-- Does any template of the catalog support `id`? -/
def catalogHas (cat : List Template) (id : String) : Bool :=
  cat.any fun t => supportsId t id

/-- First identifier in the node's declared order that some catalog
template supports. -/
def firstMatch (ids : List String) (cat : List Template) : Option String :=
  ids.find? fun id => catalogHas cat id

/-- First catalog template listing `id` as supported. -/
def findSupport (cat : List Template) (id : String) : Option Template :=
  cat.find? fun t => supportsId t id

/-- Modelled from the spec: the missing Compatibility Resolver.  Iterate
the node's compatible identifiers in declared order; for each, scan the
catalog for a template supporting it; return the first hit together with
the identifier that matched. -/
def resolveIds (cat : List Template) : List String → Option (String × Template)
  | [] => none
  | id :: rest =>
    match findSupport cat id with
    | some t => some (id, t)
    | none => resolveIds cat rest

/-- Contract `resolve(node, catalog) -> Template | NoMatch`, NoMatch as `none`. -/
def resolve (node : DeviceNode) (cat : List Template) : Option Template :=
  (resolveIds cat node.compatible).map Prod.snd

/-- Binding errors of the Parameter Binder. -/
inductive BindError where
  | missingParameter (pname : String)
  | typeMismatch (pname : String)
deriving DecidableEq

/-- Modelled from the spec: one schema entry of the missing Parameter
Binder.  Absent and required with no default fails with MissingParameter;
Absent with a default uses the default; present values type-check against
the declared type and fail with TypeMismatch on disagreement. -/
def bindEntry (props : List (String × PropertyValue)) (e : SchemaEntry) :
    Except BindError (Option (String × PropertyValue)) :=
  match getProp props e.pname with
  | .absent =>
    match e.dflt with
    | some d => .ok (some (e.pname, d))
    | none =>
      if e.required then .error (.missingParameter e.pname) else .ok none
  | v =>
    if typeOf v = some e.ptype then .ok (some (e.pname, v))
    else .error (.typeMismatch e.pname)

/-- Modelled from the spec: the missing Parameter Binder over a whole
schema, processing entries in order and failing closed. -/
def bindList (props : List (String × PropertyValue)) :
    List SchemaEntry → Except BindError BoundParams
  | [] => .ok []
  | e :: rest =>
    match bindEntry props e with
    | .error err => .error err
    | .ok r =>
      match bindList props rest with
      | .error err => .error err
      | .ok b =>
        match r with
        | some p => .ok (p :: b)
        | none => .ok b

/-- Contract `bind(node, template) -> BoundParameterSet | BindingError`. -/
def bind (node : DeviceNode) (t : Template) : Except BindError BoundParams :=
  bindList node.props t.schema

/-- Render errors; UnhandledVariant is the only render-stage error of the
spec's taxonomy. -/
inductive RenderError where
  | unhandledVariant
deriving DecidableEq

/-- Truthiness of a feature flag in bound parameters: absence is
equivalent to false, never an error. -/
def flagTruthy (b : BoundParams) (flag : String) : Bool :=
  match lookupP b flag with
  | some (.boolVal v) => v
  | _ => false

/-- Comma-separated decimal rendering of an integer list. -/
def intListText : List Int → String
  | [] => ""
  | [n] => toString n
  | n :: rest => toString n ++ ", " ++ intListText rest

/-- Comma-separated rendering of a string list. -/
def strListText : List String → String
  | [] => ""
  | [s] => s
  | s :: rest => s ++ ", " ++ strListText rest

/-- Textual representation of a bound value: integers as decimal, strings
verbatim, lists in literal-array syntax. -/
def valueText : PropertyValue → String
  | .intVal n => toString n
  | .intList l => "\x7b" ++ intListText l ++ "\x7d"
  | .strVal s => s
  | .strList l => "\x7b" ++ strListText l ++ "\x7d"
  | .boolVal b => if b then "1" else "0"
  | .refVal r => r
  | .absent => ""

/-- Text emitted at a substitution point for parameter `n`. -/
def substText (b : BoundParams) (n : String) : String :=
  match lookupP b n with
  | some v => valueText v
  | none => ""

mutual

/-- Modelled from the spec: the missing Renderer, one segment.  Literals
pass through, substitution points emit the bound value's text, conditional
blocks emit their content only when the flag is truthy, variant blocks
emit exactly the branch matching the matched identifier and fail with
UnhandledVariant when none matches. -/
def renderSeg (b : BoundParams) (m : String) : Segment → Except RenderError String
  | .lit s => .ok s
  | .subst n => .ok (substText b n)
  | .cond flag inner =>
    if flagTruthy b flag then renderList b m inner else .ok ""
  | .variant branches => renderBranches b m branches

/-- Modelled from the spec: branch dispatch of a variant block on the
matched identifier. -/
def renderBranches (b : BoundParams) (m : String) :
    List (String × List Segment) → Except RenderError String
  | [] => .error .unhandledVariant
  | (id, body) :: rest =>
    if id = m then renderList b m body else renderBranches b m rest

/-- Modelled from the spec: the missing Renderer over a segment list, in
source order. -/
def renderList (b : BoundParams) (m : String) :
    List Segment → Except RenderError String
  | [] => .ok ""
  | s :: rest =>
    match renderSeg b m s with
    | .error e => .error e
    | .ok a =>
      match renderList b m rest with
      | .error e => .error e
      | .ok r => .ok (a ++ r)

end

/-- Contract `render(template, boundParameters, matchedIdentifier) -> text`. -/
def render (t : Template) (b : BoundParams) (m : String) :
    Except RenderError String :=
  renderList b m t.body

/-- One generated output unit: output identity plus rendered text. -/
structure GeneratedUnit where
  outName : String
  text : String
deriving DecidableEq

/-- Modelled from the spec: the missing Emitter's output naming, a pure
function of the node's identity alone. -/
def outputName (n : DeviceNode) : String :=
  n.name ++ "_device"

/-- Contract `emit(node, text) -> GeneratedUnit`. -/
def emit (n : DeviceNode) (text : String) : GeneratedUnit :=
  ⟨outputName n, text⟩

/-- Per-node outcome of the pipeline Resolve, Bind, Render, Emit. -/
inductive NodeOutcome where
  | success (u : GeneratedUnit)
  | noMatch
  | missingParameter (pname : String)
  | typeMismatch (pname : String)
  | fatalVariant
deriving DecidableEq

/-- Modelled from the spec: the missing per-node pipeline.  Resolve picks
a template and the matched identifier, Bind produces bound parameters,
Render produces the text, Emit names the unit from node identity. -/
def processNode (cat : List Template) (n : DeviceNode) : NodeOutcome :=
  match resolveIds cat n.compatible with
  | none => .noMatch
  | some (id, t) =>
    match bind n t with
    | .error (.missingParameter p) => .missingParameter p
    | .error (.typeMismatch p) => .typeMismatch p
    | .ok b =>
      match render t b id with
      | .error .unhandledVariant => .fatalVariant
      | .ok text => .success (emit n text)

/-- Is this outcome the fatal UnhandledVariant condition? -/
def isFatal : NodeOutcome → Bool
  | .fatalVariant => true
  | _ => false

/-- The generated unit of a node, when its pipeline succeeded. -/
def nodeUnit (cat : List Template) (n : DeviceNode) : Option GeneratedUnit :=
  match processNode cat n with
  | .success u => some u
  | _ => none

/-- The output identity of a node, when its pipeline succeeded. -/
def nodeOutName (cat : List Template) (n : DeviceNode) : Option String :=
  match processNode cat n with
  | .success u => some u.outName
  | _ => none

/-- First element of the list that occurs again later, if any. -/
def firstDup : List String → Option String
  | [] => none
  | x :: xs => if x ∈ xs then some x else firstDup xs

/-- Run-fatal conditions of the error taxonomy. -/
inductive FatalError where
  | unhandledVariant (nodeName : String)
  | outputCollision (outName : String)
deriving DecidableEq

/-- Partitioned run-level report of succeeded, skipped and failed nodes,
plus the emitted units. -/
structure RunReport where
  results : List (String × NodeOutcome)
  succeeded : List String
  skipped : List String
  failed : List String
  emitted : List GeneratedUnit
deriving DecidableEq

/-- Disabled nodes are excluded from generation entirely. -/
def eligibleNodes (nodes : List DeviceNode) : List DeviceNode :=
  nodes.filter fun n => n.enabled

/-- Modelled from the spec: the missing run driver.  Each node is
processed independently; per-node errors are isolated into the report;
UnhandledVariant and OutputCollision are fatal and abort the run with no
unit emitted. -/
def run (cat : List Template) (nodes : List DeviceNode) :
    Except FatalError RunReport :=
  match (eligibleNodes nodes).find? (fun n => isFatal (processNode cat n)) with
  | some n => .error (.unhandledVariant n.name)
  | none =>
    match firstDup ((eligibleNodes nodes).filterMap (nodeOutName cat)) with
    | some nm => .error (.outputCollision nm)
    | none =>
      .ok
        { results := (eligibleNodes nodes).map fun n => (n.name, processNode cat n)
          succeeded := (eligibleNodes nodes).filterMap fun n =>
            match processNode cat n with
            | .success _ => some n.name
            | _ => none
          skipped := (eligibleNodes nodes).filterMap fun n =>
            match processNode cat n with
            | .noMatch => some n.name
            | _ => none
          failed := (eligibleNodes nodes).filterMap fun n =>
            match processNode cat n with
            | .missingParameter _ => some n.name
            | .typeMismatch _ => some n.name
            | _ => none
          emitted := (eligibleNodes nodes).filterMap (nodeUnit cat) }

/-
Embedding of src/drivers/i2c/i2c_ll_stm32_device_template.h.
-/

/-- Template-level name bound at line 6 of the source. -/
def irq_flag : String := "CONFIG_I2C_STM32_INTERRUPT"

/-- Template-level name bound at line 7 of the source. -/
def config_struct : String := "i2c_stm32_config"

/-- Template-level name bound at line 8 of the source. -/
def data_struct : String := "i2c_stm32_data"

/-- Template-level name bound at line 9 of the source. -/
def api_struct : String := "api_funcs"

/-- Template-level name bound at line 10 of the source. -/
def init_function : String := "i2c_stm32_init"

/-- Include-guard opening of the template, source lines 2 and 3. -/
def i2c_guard_open : String :=
  "#ifndef _I2C_LL_STM32_DEVICE_H_\n#define _I2C_LL_STM32_DEVICE_H_\n"

/-- Body of the irq_config_function_body definition block, source lines
13 to 15: between the opening and closing tags there is no directive and
no literal content other than the blank line adjoining the tags, so the
block defines no segments. -/
def irq_config_function_body_segs : List Segment := []

/-- The irq_config_function_body sub-block of the template rendered at
its five declared arguments (bound in front of any further parameters
`extra`, such as the CONFIG_I2C_STM32_INTERRUPT flag). -/
def irq_config_function_body (device_name config_struct_name data_struct_name
    irq_config_config_function_name device_lable : String)
    (extra : BoundParams) (m : String) : Except RenderError String :=
  renderList
    (("device_name", .strVal device_name) ::
      ("config_struct_name", .strVal config_struct_name) ::
      ("data_struct_name", .strVal data_struct_name) ::
      ("irq_config_config_function_name", .strVal irq_config_config_function_name) ::
      ("device_lable", .strVal device_lable) :: extra)
    m irq_config_function_body_segs

/-- Modelled from the spec: the render body behind the inherited
device_declare.txt for identifier st,stm32-i2c-v1; device_declare.txt is
not under src/ and the spec records the per-variant render bodies as
unimplemented placeholders. -/
def device_declare_v1_body : List Segment := []

/-- Modelled from the spec: the render body behind the inherited
device_declare.txt for identifier st,stm32-i2c-v2 (unimplemented
placeholder, as for v1). -/
def device_declare_v2_body : List Segment := []

/-- The self.device call at line 18 of the template, passing the two
supported identifiers st,stm32-i2c-v1 and st,stm32-i2c-v2, as a variant
block over those identifiers. -/
def i2c_device_call : Segment :=
  .variant
    [("st,stm32-i2c-v1", device_declare_v1_body),
     ("st,stm32-i2c-v2", device_declare_v2_body)]

/-- Render body of the i2c template: include-guard opening, blank lines
around the directive blocks (which render nothing), the device call, and
the closing `#endif` at line 20. -/
def i2c_template_body : List Segment :=
  [.lit i2c_guard_open, .lit "\n", .lit "\n", .lit "\n\n",
   i2c_device_call, .lit "\n", .lit "#endif"]

/-- The i2c template of the source file as a catalog entry. -/
def i2c_template : Template :=
  { tname := "i2c_ll_stm32_device"
    supported := ["st,stm32-i2c-v1", "st,stm32-i2c-v2"]
    schema := []
    body := i2c_template_body }

/-- The root node of src/boards/arm/nucleo_l073rz/nucleo_l073rz.dts,
line 12: compatible = "st,stm32l073rz-nucleo", "st,stm32l073". -/
def nucleoNode : DeviceNode :=
  { name := "nucleo_l073rz"
    compatible := ["st,stm32l073rz-nucleo", "st,stm32l073"]
    props := []
    enabled := true }

/-- Catalog entry used in examples: a template for the generic identifier
of the nucleo board node. -/
def nucleoGenericTemplate : Template :=
  { tname := "stm32l0_generic"
    supported := ["st,stm32l073"]
    schema := []
    body := [] }

/-- Catalog entry used in examples: a template for the board-specific
identifier of the nucleo board node. -/
def nucleoSpecificTemplate : Template :=
  { tname := "stm32l073rz_nucleo"
    supported := ["st,stm32l073rz-nucleo"]
    schema := []
    body := [] }

/-- Example catalog listing the generic template first, so that catalog
order disagrees with the node's declared precedence. -/
def nucleoCatalog : List Template :=
  [nucleoGenericTemplate, nucleoSpecificTemplate]

/-- Example schema entry: a required, default-less integer parameter. -/
def reqEntry : SchemaEntry :=
  { pname := "reg_base", ptype := .tInt, required := true, dflt := none }

/-- Example node: same identity as `nodeB` but different properties. -/
def nodeA : DeviceNode :=
  { name := "i2c_dup"
    compatible := ["st,stm32l073"]
    props := []
    enabled := true }

/-- Example node: same identity as `nodeA` but different properties. -/
def nodeB : DeviceNode :=
  { name := "i2c_dup"
    compatible := ["st,stm32l073"]
    props := [("clock-frequency", .intVal 400000)]
    enabled := true }

theorem supportsId_iff {t : Template} {id : String} :
    supportsId t id = true ↔ id ∈ t.supported := by
  unfold supportsId
  rw [List.any_eq_true]
  constructor
  · rintro ⟨s, hs, hbeq⟩
    rw [beq_iff_eq] at hbeq
    exact hbeq ▸ hs
  · intro h
    exact ⟨id, h, by rw [beq_iff_eq]⟩

theorem catalogHas_iff {cat : List Template} {id : String} :
    catalogHas cat id = true ↔ ∃ t ∈ cat, supportsId t id = true := by
  unfold catalogHas
  exact List.any_eq_true

theorem findSupport_some_mem {cat : List Template} {id : String}
    {t : Template} (h : findSupport cat id = some t) : t ∈ cat := by
  unfold findSupport at h
  exact List.mem_of_find?_eq_some h

theorem findSupport_some_sup {cat : List Template} {id : String}
    {t : Template} (h : findSupport cat id = some t) :
    supportsId t id = true := by
  unfold findSupport at h
  exact @List.find?_some _ (fun u => supportsId u id) t cat h

theorem resolveIds_eq (cat : List Template) (ids : List String) :
    resolveIds cat ids =
      (firstMatch ids cat).bind fun id =>
        (findSupport cat id).map fun t => (id, t) := by
  induction ids with
  | nil => rfl
  | cons id rest ih =>
    unfold resolveIds firstMatch
    cases h : findSupport cat id with
    | some t =>
      have hhas : catalogHas cat id = true :=
        catalogHas_iff.mpr ⟨t, findSupport_some_mem h, findSupport_some_sup h⟩
      rw [List.find?_cons_of_pos _ hhas]
      simp [h]
    | none =>
      have hhas : catalogHas cat id = false := by
        rw [← Bool.not_eq_true, catalogHas_iff]
        rintro ⟨t, ht, hst⟩
        have := List.find?_eq_none.mp (by unfold findSupport at h; exact h) t ht
        exact this hst
      rw [List.find?_cons_of_neg _ (by rw [hhas]; exact Bool.false_ne_true)]
      rw [ih]
      rfl

theorem catalogHas_perm {cat cat' : List Template} (h : cat.Perm cat')
    (id : String) : catalogHas cat' id = catalogHas cat id := by
  rw [Bool.eq_iff_iff, catalogHas_iff, catalogHas_iff]
  constructor
  · rintro ⟨t, ht, hst⟩
    exact ⟨t, h.mem_iff.mpr ht, hst⟩
  · rintro ⟨t, ht, hst⟩
    exact ⟨t, h.mem_iff.mp ht, hst⟩

theorem firstMatch_perm {cat cat' : List Template} (h : cat.Perm cat')
    (ids : List String) : firstMatch ids cat' = firstMatch ids cat := by
  unfold firstMatch
  have heq : (fun id => catalogHas cat' id) = fun id => catalogHas cat id :=
    funext fun id => catalogHas_perm h id
  rw [heq]

theorem findSupport_unique {cat : List Template} {t : Template} {id : String}
    (hmem : t ∈ cat) (hsup : supportsId t id = true)
    (huniq : ∀ u ∈ cat, supportsId u id = true → u = t) :
    findSupport cat id = some t := by
  cases h : findSupport cat id with
  | none =>
    unfold findSupport at h
    exact absurd hsup (List.find?_eq_none.mp h t hmem)
  | some u =>
    rw [huniq u (findSupport_some_mem h) (findSupport_some_sup h)]

/-- C1: for every node whose compatible list intersects the catalog,
`resolve` returns a template supporting the first matching identifier in
the node's declared order; when templates are uniquely responsible for an
identifier this is invariant under reordering of the catalog; and when no
listed identifier is supported, `resolve` returns NoMatch (`none`). -/
theorem resolve_first_match_spec (node : DeviceNode) (cat : List Template) :
    ((∃ id ∈ node.compatible, ∃ t ∈ cat, supportsId t id = true) →
      ∃ id t, firstMatch node.compatible cat = some id ∧
        resolve node cat = some t ∧ t ∈ cat ∧ supportsId t id = true) ∧
    ((∀ id ∈ node.compatible, ∀ t ∈ cat, supportsId t id = false) →
      resolve node cat = none) ∧
    (∀ cat', cat.Perm cat' →
      firstMatch node.compatible cat' = firstMatch node.compatible cat) ∧
    (∀ cat' t id, cat.Perm cat' →
      firstMatch node.compatible cat = some id →
      t ∈ cat → supportsId t id = true →
      (∀ u ∈ cat, supportsId u id = true → u = t) →
      resolve node cat = some t ∧ resolve node cat' = some t) := by
  refine ⟨?_, ?_, ?_, ?_⟩
  · rintro ⟨id, hid, t, ht, hst⟩
    have hhas : catalogHas cat id = true := catalogHas_iff.mpr ⟨t, ht, hst⟩
    have hsome : (firstMatch node.compatible cat).isSome := by
      unfold firstMatch
      rw [List.find?_isSome]
      exact ⟨id, hid, hhas⟩
    obtain ⟨id', hid'⟩ := Option.isSome_iff_exists.mp hsome
    have hhas' : catalogHas cat id' = true := by
      have h2 := hid'
      unfold firstMatch at h2
      exact List.find?_some h2
    obtain ⟨t', ht', hst'⟩ := catalogHas_iff.mp hhas'
    have hfs : (findSupport cat id').isSome := by
      unfold findSupport
      rw [List.find?_isSome]
      exact ⟨t', ht', hst'⟩
    obtain ⟨t'', ht''⟩ := Option.isSome_iff_exists.mp hfs
    refine ⟨id', t'', hid', ?_, findSupport_some_mem ht'',
      findSupport_some_sup ht''⟩
    unfold resolve
    rw [resolveIds_eq, hid', Option.some_bind, ht'']
    rfl
  · intro hnone
    have hfm : firstMatch node.compatible cat = none := by
      unfold firstMatch
      rw [List.find?_eq_none]
      intro id hid
      rw [catalogHas_iff]
      rintro ⟨t, ht, hst⟩
      rw [hnone id hid t ht] at hst
      exact Bool.false_ne_true hst
    unfold resolve
    rw [resolveIds_eq, hfm]
    rfl
  · intro cat' hperm
    exact firstMatch_perm hperm node.compatible
  · intro cat' t id hperm hfm ht hst huniq
    constructor
    · unfold resolve
      rw [resolveIds_eq, hfm, Option.some_bind, findSupport_unique ht hst huniq]
      rfl
    · unfold resolve
      rw [resolveIds_eq, firstMatch_perm hperm, hfm, Option.some_bind,
        findSupport_unique (hperm.mem_iff.mp ht) hst
          (fun u hu hsu => huniq u (hperm.mem_iff.mpr hu) hsu)]
      rfl

/-- C1 witness: the nucleo board node, whose compatible list names the
board-specific identifier first, resolves against a catalog that lists
the generic template first. -/
theorem resolve_first_match_spec_witness :
    ∃ id t, firstMatch nucleoNode.compatible nucleoCatalog = some id ∧
      resolve nucleoNode nucleoCatalog = some t ∧ t ∈ nucleoCatalog ∧
      supportsId t id = true :=
  (resolve_first_match_spec nucleoNode nucleoCatalog).1
    ⟨"st,stm32l073rz-nucleo", by decide, nucleoSpecificTemplate, by
      simp [nucleoCatalog], by decide⟩

/-- C2: rendering is pure and deterministic — identical (template,
boundParameters, matchedIdentifier) triples always yield identical text;
in this embedding `render` is a function of exactly those three inputs,
so two invocations on equal inputs agree byte for byte. -/
theorem render_deterministic (t t' : Template) (b b' : BoundParams)
    (m m' : String) (ht : t = t') (hb : b = b') (hm : m = m') :
    render t b m = render t' b' m' := by
  subst ht
  subst hb
  subst hm
  rfl

/-- C2 witness: two invocations on the i2c template at the same inputs. -/
theorem render_deterministic_witness :
    render i2c_template [] "st,stm32-i2c-v1" =
      render i2c_template [] "st,stm32-i2c-v1" :=
  render_deterministic i2c_template i2c_template [] [] "st,stm32-i2c-v1"
    "st,stm32-i2c-v1" rfl rfl rfl

/-- C3: a conditional block guarded by a flag that is absent from the
bound parameters renders exactly as with the flag explicitly false —
empty text in both cases, never an error. -/
theorem cond_flag_absent_eq_false (flag : String) (inner : List Segment)
    (b : BoundParams) (m : String) (h : lookupP b flag = none) :
    renderSeg b m (.cond flag inner) = .ok "" ∧
    renderSeg ((flag, .boolVal false) :: b) m (.cond flag inner) = .ok "" := by
  constructor
  · have hf : flagTruthy b flag = false := by
      unfold flagTruthy
      rw [h]
    simp [renderSeg, hf]
  · have hf : flagTruthy ((flag, .boolVal false) :: b) flag = false := by
      unfold flagTruthy lookupP
      simp
    simp [renderSeg, hf]

/-- C3 witness: the interrupt-mode conditional with the guard flag absent
from an empty parameter set, and with it explicitly false. -/
theorem cond_flag_absent_eq_false_witness :
    renderSeg [] "st,stm32-i2c-v1" (.cond irq_flag [.lit "irq_setup();"]) =
      .ok "" ∧
    renderSeg [(irq_flag, .boolVal false)] "st,stm32-i2c-v1"
      (.cond irq_flag [.lit "irq_setup();"]) = .ok "" :=
  cond_flag_absent_eq_false irq_flag [.lit "irq_setup();"] [] "st,stm32-i2c-v1"
    rfl

theorem bindList_not_ok_of_mem_err {props : List (String × PropertyValue)}
    {schema : List SchemaEntry} {e : SchemaEntry} {err : BindError}
    (hmem : e ∈ schema) (herr : bindEntry props e = .error err) :
    ∀ bset, bindList props schema ≠ .ok bset := by
  induction schema with
  | nil => cases hmem
  | cons x rest ih =>
    intro bset
    rcases List.mem_cons.mp hmem with hx | hrest
    · subst hx
      unfold bindList
      rw [herr]
      exact fun hcontra => Except.noConfusion hcontra
    · unfold bindList
      cases hx : bindEntry props x with
      | error e2 => exact fun hcontra => Except.noConfusion hcontra
      | ok r =>
        cases hrec : bindList props rest with
        | error e2 => exact fun hcontra => Except.noConfusion hcontra
        | ok b2 => exact absurd hrec (ih hrest b2)

/-- C4: when a template's parameter schema contains a required,
default-less entry whose property is Absent in the node's store, `bind`
produces no bound parameter set at all, and — once the entries before it
bind cleanly — it fails with MissingParameter for exactly that entry. -/
theorem bind_missing_required (props : List (String × PropertyValue))
    (schema : List SchemaEntry) (e : SchemaEntry)
    (hmem : e ∈ schema) (hreq : e.required = true) (hdf : e.dflt = none)
    (habs : getProp props e.pname = .absent) :
    (∀ bset, bindList props schema ≠ .ok bset) ∧
    (∀ pre post, schema = pre ++ e :: post →
      (∀ e' ∈ pre, ∃ r, bindEntry props e' = .ok r) →
      bindList props schema = .error (.missingParameter e.pname)) := by
  have herr : bindEntry props e = .error (.missingParameter e.pname) := by
    unfold bindEntry
    rw [habs, hdf, hreq]
    simp
  constructor
  · exact bindList_not_ok_of_mem_err hmem herr
  · intro pre post hschema hpre
    subst hschema
    clear hmem
    induction pre with
    | nil =>
      simp only [List.nil_append, bindList, herr]
    | cons x xs ih =>
      obtain ⟨r, hr⟩ := hpre x (List.mem_cons_self x xs)
      have hrec := ih (fun e' he' => hpre e' (List.mem_cons_of_mem x he'))
      simp only [List.cons_append, bindList, hr, List.append_eq, hrec]

/-- C4 witness: an empty property store bound against a schema holding a
single required, default-less integer parameter. -/
theorem bind_missing_required_witness :
    bindList [] [reqEntry] = .error (.missingParameter "reg_base") :=
  (bind_missing_required [] [reqEntry] reqEntry (by decide) rfl rfl rfl).2
    [] [] rfl (by simp)

theorem renderBranches_mem {branches : List (String × List Segment)}
    {b : BoundParams} {m : String} {body : List Segment}
    (hmem : (m, body) ∈ branches) (hnd : (branches.map Prod.fst).Nodup) :
    renderBranches b m branches = renderList b m body := by
  induction branches with
  | nil => cases hmem
  | cons p rest ih =>
    obtain ⟨id, bd⟩ := p
    rw [List.map_cons, List.nodup_cons] at hnd
    rcases List.mem_cons.mp hmem with hhead | htail
    · have hid : id = m := (congrArg Prod.fst hhead).symm
      have hbd : bd = body := (congrArg Prod.snd hhead).symm
      subst hid
      subst hbd
      simp [renderBranches]
    · have hne : id ≠ m := by
        intro hcontra
        apply hnd.1
        rw [hcontra]
        exact show Prod.fst (m, body) ∈ List.map Prod.fst rest from
          List.mem_map_of_mem Prod.fst htail
      simp only [renderBranches]
      rw [if_neg hne]
      exact ih htail hnd.2

theorem renderBranches_no_match {branches : List (String × List Segment)}
    {b : BoundParams} {m : String} (h : ∀ p ∈ branches, p.1 ≠ m) :
    renderBranches b m branches = .error .unhandledVariant := by
  induction branches with
  | nil => rfl
  | cons p rest ih =>
    obtain ⟨id, bd⟩ := p
    simp only [renderBranches]
    rw [if_neg (h (id, bd) (List.mem_cons_self _ _))]
    exact ih fun q hq => h q (List.mem_cons_of_mem _ hq)

theorem find?_some_of_exists {α : Type} {l : List α} {p : α → Bool}
    (h : ∃ x ∈ l, p x = true) : ∃ y, l.find? p = some y := by
  have : (l.find? p).isSome := List.find?_isSome.mpr h
  exact Option.isSome_iff_exists.mp this

/-- C5: a variant block emits exactly the branch whose identifier equals
the matched identifier (branch identifiers being distinct, at most one is
active); when no branch matches it fails with UnhandledVariant; and a
node whose render hits UnhandledVariant makes the whole run fail. -/
theorem variant_branch_spec :
    (∀ (branches : List (String × List Segment)) (b : BoundParams)
      (m : String) (body : List Segment),
      (m, body) ∈ branches → (branches.map Prod.fst).Nodup →
      renderSeg b m (.variant branches) = renderList b m body) ∧
    (∀ (branches : List (String × List Segment)) (b : BoundParams)
      (m : String), (∀ p ∈ branches, p.1 ≠ m) →
      renderSeg b m (.variant branches) = .error .unhandledVariant) ∧
    (∀ (cat : List Template) (nodes : List DeviceNode) (n : DeviceNode),
      n ∈ nodes → n.enabled = true → processNode cat n = .fatalVariant →
      ∃ e, run cat nodes = Except.error e) := by
  refine ⟨?_, ?_, ?_⟩
  · intro branches b m body hmem hnd
    simp only [renderSeg]
    exact renderBranches_mem hmem hnd
  · intro branches b m h
    simp only [renderSeg]
    exact renderBranches_no_match h
  · intro cat nodes n hn he hfat
    have helig : n ∈ eligibleNodes nodes := by
      unfold eligibleNodes
      rw [List.mem_filter]
      exact ⟨hn, he⟩
    obtain ⟨y, hy⟩ := @find?_some_of_exists DeviceNode (eligibleNodes nodes)
      (fun k => isFatal (processNode cat k))
      ⟨n, helig, by show isFatal (processNode cat n) = true; rw [hfat]; rfl⟩
    refine ⟨.unhandledVariant y.name, ?_⟩
    unfold run
    rw [hy]

/-- C5 witness: the device-call variant of the i2c template emits the
v1 branch for matched identifier st,stm32-i2c-v1, and is UnhandledVariant
for an identifier no branch handles. -/
theorem variant_branch_spec_witness :
    renderSeg [] "st,stm32-i2c-v1" i2c_device_call =
      renderList [] "st,stm32-i2c-v1" device_declare_v1_body ∧
    renderSeg [] "st,stm32-i2c-v9" i2c_device_call =
      .error .unhandledVariant :=
  ⟨variant_branch_spec.1
      [("st,stm32-i2c-v1", device_declare_v1_body),
       ("st,stm32-i2c-v2", device_declare_v2_body)]
      [] "st,stm32-i2c-v1" device_declare_v1_body
      (List.mem_cons_self _ _) (by decide),
    variant_branch_spec.2.1
      [("st,stm32-i2c-v1", device_declare_v1_body),
       ("st,stm32-i2c-v2", device_declare_v2_body)]
      [] "st,stm32-i2c-v9" (by decide)⟩

theorem isFatal_iff {o : NodeOutcome} : isFatal o = true ↔ o = .fatalVariant := by
  cases o <;> simp [isFatal]

/-- C6: when no node hits the fatal conditions, the run succeeds with a
partitioned report in which every eligible node appears with the outcome
of its own pipeline alone — a node failing with NoMatch, MissingParameter
or TypeMismatch occupies its slot of the report without disturbing any
other node's entry. -/
theorem per_node_isolation (cat : List Template) (nodes : List DeviceNode)
    (hnf : ∀ n ∈ nodes, n.enabled = true → processNode cat n ≠ .fatalVariant)
    (hnc : firstDup ((eligibleNodes nodes).filterMap (nodeOutName cat)) = none) :
    ∃ rep, run cat nodes = .ok rep ∧
      rep.results = (eligibleNodes nodes).map
        (fun n => (n.name, processNode cat n)) ∧
      (∀ n ∈ nodes, n.enabled = true →
        (n.name, processNode cat n) ∈ rep.results) ∧
      rep.succeeded = (eligibleNodes nodes).filterMap (fun n =>
        match processNode cat n with
        | .success _ => some n.name
        | _ => none) ∧
      rep.skipped = (eligibleNodes nodes).filterMap (fun n =>
        match processNode cat n with
        | .noMatch => some n.name
        | _ => none) ∧
      rep.failed = (eligibleNodes nodes).filterMap (fun n =>
        match processNode cat n with
        | .missingParameter _ => some n.name
        | .typeMismatch _ => some n.name
        | _ => none) ∧
      rep.emitted = (eligibleNodes nodes).filterMap (nodeUnit cat) := by
  have hfind : (eligibleNodes nodes).find?
      (fun n => isFatal (processNode cat n)) = none := by
    rw [List.find?_eq_none]
    intro n hn
    have hn2 := List.mem_filter.mp hn
    intro habs
    exact hnf n hn2.1 hn2.2 (isFatal_iff.mp habs)
  refine
    ⟨{ results := (eligibleNodes nodes).map fun n => (n.name, processNode cat n)
       succeeded := (eligibleNodes nodes).filterMap fun n =>
         match processNode cat n with
         | .success _ => some n.name
         | _ => none
       skipped := (eligibleNodes nodes).filterMap fun n =>
         match processNode cat n with
         | .noMatch => some n.name
         | _ => none
       failed := (eligibleNodes nodes).filterMap fun n =>
         match processNode cat n with
         | .missingParameter _ => some n.name
         | .typeMismatch _ => some n.name
         | _ => none
       emitted := (eligibleNodes nodes).filterMap (nodeUnit cat) },
      ?_, rfl, ?_, rfl, rfl, rfl, rfl⟩
  · unfold run
    rw [hfind, hnc]
  · intro n hn he
    exact List.mem_map_of_mem _ (List.mem_filter.mpr ⟨hn, he⟩)

/-- C6 witness: a run over the nucleo node with an empty catalog — the
node fails with NoMatch yet the run succeeds with the node reported. -/
theorem per_node_isolation_witness :
    ∃ rep, run [] [nucleoNode] = .ok rep ∧
      rep.results = (eligibleNodes [nucleoNode]).map
        (fun n => (n.name, processNode [] n)) ∧
      (∀ n ∈ [nucleoNode], n.enabled = true →
        (n.name, processNode [] n) ∈ rep.results) ∧
      rep.succeeded = (eligibleNodes [nucleoNode]).filterMap (fun n =>
        match processNode [] n with
        | .success _ => some n.name
        | _ => none) ∧
      rep.skipped = (eligibleNodes [nucleoNode]).filterMap (fun n =>
        match processNode [] n with
        | .noMatch => some n.name
        | _ => none) ∧
      rep.failed = (eligibleNodes [nucleoNode]).filterMap (fun n =>
        match processNode [] n with
        | .missingParameter _ => some n.name
        | .typeMismatch _ => some n.name
        | _ => none) ∧
      rep.emitted = (eligibleNodes [nucleoNode]).filterMap (nodeUnit []) :=
  per_node_isolation [] [nucleoNode] (by decide) rfl

/-- C7: the Emitter's output identity is a pure function of device-node
identity — nodes with equal identity get equal output names no matter how
their other fields differ — and re-running the generator on unchanged
input reproduces the identical result. -/
theorem output_identity_pure (n1 n2 : DeviceNode) (h : n1.name = n2.name) :
    outputName n1 = outputName n2 ∧
    (∀ text, emit n1 text = ⟨outputName n1, text⟩) ∧
    (∀ cat nodes, run cat nodes = run cat nodes) := by
  refine ⟨?_, fun text => rfl, fun cat nodes => rfl⟩
  unfold outputName
  rw [h]

/-- C7 witness: two nodes sharing an identity but differing in their
property stores receive the same output name. -/
theorem output_identity_pure_witness :
    outputName nodeA = outputName nodeB ∧
    (∀ text, emit nodeA text = ⟨outputName nodeA, text⟩) ∧
    (∀ cat nodes, run cat nodes = run cat nodes) :=
  output_identity_pure nodeA nodeB rfl

theorem firstDup_none_nodup {l : List String} (h : firstDup l = none) :
    l.Nodup := by
  induction l with
  | nil => exact List.nodup_nil
  | cons x xs ih =>
    unfold firstDup at h
    by_cases hx : x ∈ xs
    · rw [if_pos hx] at h
      exact Option.noConfusion h
    · rw [if_neg hx] at h
      exact List.nodup_cons.mpr ⟨hx, ih h⟩

theorem firstDup_some_of_not_nodup {l : List String} (h : ¬ l.Nodup) :
    ∃ y, firstDup l = some y := by
  cases hfd : firstDup l with
  | none => exact absurd (firstDup_none_nodup hfd) h
  | some y => exact ⟨y, rfl⟩

theorem two_le_count_filterMap {α : Type} (f : α → Option String)
    {l : List α} {a b : α} {nm : String}
    (ha : a ∈ l) (hb : b ∈ l) (hab : a ≠ b)
    (hfa : f a = some nm) (hfb : f b = some nm) :
    2 ≤ (l.filterMap f).count nm := by
  induction l with
  | nil => cases ha
  | cons c t ih =>
    rcases List.mem_cons.mp ha with hac | hat
    · subst hac
      have hbt : b ∈ t := by
        rcases List.mem_cons.mp hb with hbc | hbt
        · exact absurd hbc.symm hab
        · exact hbt
      rw [List.filterMap_cons_some hfa, List.count_cons_self]
      have hpos : 0 < (t.filterMap f).count nm :=
        List.count_pos_iff.mpr (List.mem_filterMap.mpr ⟨b, hbt, hfb⟩)
      omega
    · rcases List.mem_cons.mp hb with hbc | hbt
      · subst hbc
        rw [List.filterMap_cons_some hfb, List.count_cons_self]
        have hpos : 0 < (t.filterMap f).count nm :=
          List.count_pos_iff.mpr (List.mem_filterMap.mpr ⟨a, hat, hfa⟩)
        omega
      · have hcount := ih hat hbt
        rw [List.filterMap_cons]
        cases hc : f c with
        | none => exact hcount
        | some v =>
          exact Nat.le_trans hcount (by
            rw [List.count_cons]
            exact Nat.le_add_right _ _)

/-- C8: two distinct eligible nodes whose successful pipelines compute
the same output identity make the run fail with OutputCollision — the
run produces no report, so neither colliding unit is emitted. -/
theorem output_collision_fatal (cat : List Template) (nodes : List DeviceNode)
    (n1 n2 : DeviceNode) (u1 u2 : GeneratedUnit)
    (h1 : n1 ∈ nodes) (h2 : n2 ∈ nodes) (hne : n1 ≠ n2)
    (he1 : n1.enabled = true) (he2 : n2.enabled = true)
    (hnf : ∀ n ∈ nodes, n.enabled = true → processNode cat n ≠ .fatalVariant)
    (hp1 : processNode cat n1 = .success u1)
    (hp2 : processNode cat n2 = .success u2)
    (hcol : u1.outName = u2.outName) :
    (∃ nm, run cat nodes = .error (.outputCollision nm)) ∧
    ∀ rep, run cat nodes ≠ .ok rep := by
  have hfind : (eligibleNodes nodes).find?
      (fun n => isFatal (processNode cat n)) = none := by
    rw [List.find?_eq_none]
    intro n hn
    have hn2 := List.mem_filter.mp hn
    intro habs
    exact hnf n hn2.1 hn2.2 (isFatal_iff.mp habs)
  have helig1 : n1 ∈ eligibleNodes nodes := List.mem_filter.mpr ⟨h1, he1⟩
  have helig2 : n2 ∈ eligibleNodes nodes := List.mem_filter.mpr ⟨h2, he2⟩
  have hn1 : nodeOutName cat n1 = some u1.outName := by
    unfold nodeOutName
    rw [hp1]
  have hn2 : nodeOutName cat n2 = some u1.outName := by
    unfold nodeOutName
    rw [hp2, hcol]
  have hcount := two_le_count_filterMap (nodeOutName cat)
    helig1 helig2 hne hn1 hn2
  have hnotnodup :
      ¬ ((eligibleNodes nodes).filterMap (nodeOutName cat)).Nodup := by
    intro hnd
    have hle := List.nodup_iff_count_le_one.mp hnd u1.outName
    omega
  obtain ⟨y, hy⟩ := firstDup_some_of_not_nodup hnotnodup
  constructor
  · refine ⟨y, ?_⟩
    unfold run
    rw [hfind, hy]
  · intro rep hcontra
    unfold run at hcontra
    rw [hfind, hy] at hcontra
    exact Except.noConfusion hcontra

/-- C8 witness: two distinct enabled nodes with the same identity (hence
the same output name) both succeed against the nucleo catalog; the run
fails with OutputCollision and yields no report. -/
theorem output_collision_fatal_witness :
    (∃ nm, run nucleoCatalog [nodeA, nodeB] = .error (.outputCollision nm)) ∧
    ∀ rep, run nucleoCatalog [nodeA, nodeB] ≠ .ok rep :=
  output_collision_fatal nucleoCatalog [nodeA, nodeB] nodeA nodeB
    ⟨"i2c_dup_device", ""⟩ ⟨"i2c_dup_device", ""⟩
    (by decide) (by decide) (by decide) rfl rfl (by decide) rfl rfl rfl

/-- C9: the i2c template's irq_config_function_body sub-block renders to
empty text for every combination of its five arguments, any further bound
parameters (in particular any setting of CONFIG_I2C_STM32_INTERRUPT) and
any matched identifier: its definition body holds no content. -/
theorem irq_config_function_body_empty
    (device_name config_struct_name data_struct_name
      irq_config_config_function_name device_lable : String)
    (extra : BoundParams) (m : String) :
    irq_config_function_body device_name config_struct_name data_struct_name
      irq_config_config_function_name device_lable extra m = .ok "" := rfl

/-- C10: every successful render of the i2c template, whatever the bound
parameters and matched identifier, opens with the fixed include-guard
lines `#ifndef _I2C_LL_STM32_DEVICE_H_` / `#define _I2C_LL_STM32_DEVICE_H_`
and closes with `#endif`; the guard is a constant of the template, so all
generated units share it. -/
theorem i2c_template_guard (b : BoundParams) (m : String) (out : String)
    (h : render i2c_template b m = .ok out) :
    (∃ rest, out = i2c_guard_open ++ rest) ∧
    (∃ pre, out = pre ++ "#endif") := by
  unfold render i2c_template i2c_template_body i2c_device_call at h
  cases hs : renderBranches b m
      [("st,stm32-i2c-v1", device_declare_v1_body),
       ("st,stm32-i2c-v2", device_declare_v2_body)] with
  | error e =>
    simp only [renderList, renderSeg, hs] at h
    exact Except.noConfusion h
  | ok s =>
    simp only [renderList, renderSeg, hs] at h
    injection h with h2
    subst h2
    constructor
    · exact ⟨_, rfl⟩
    · refine ⟨i2c_guard_open ++ ("\n" ++ ("\n" ++ ("\n\n" ++ (s ++ "\n")))), ?_⟩
      simp [String.append_assoc]

/-- C10 witness: rendering the i2c template with no bound parameters for
matched identifier st,stm32-i2c-v1. -/
theorem i2c_template_guard_witness :
    (∃ rest,
      "#ifndef _I2C_LL_STM32_DEVICE_H_\n#define _I2C_LL_STM32_DEVICE_H_\n\n\n\n\n\n#endif" =
        i2c_guard_open ++ rest) ∧
    (∃ pre,
      "#ifndef _I2C_LL_STM32_DEVICE_H_\n#define _I2C_LL_STM32_DEVICE_H_\n\n\n\n\n\n#endif" =
        pre ++ "#endif") :=
  i2c_template_guard [] "st,stm32-i2c-v1"
    "#ifndef _I2C_LL_STM32_DEVICE_H_\n#define _I2C_LL_STM32_DEVICE_H_\n\n\n\n\n\n#endif"
    (by rfl)
